import Mathlib

/-!
Shallow embedding of the `PipesTestStack` CDK stack
(`src/infra/lib/stack.ts` of SnsSqsPipesDynamoDemo).

The repository wires managed AWS resources together declaratively:
a DynamoDB table, an SQS queue, an SNS topic subscribed to the queue,
a CloudWatch log group, a two-step Step Functions state machine
(a `Pass` state selecting the message bodies followed by a `Map` state
iterating a `DynamoPutItem` task), an IAM role, and an EventBridge pipe.

Resource property records are transcribed field by field from the
constructor calls in `stack.ts`; the single piece of behaviour — the
declarative Pass → Map → DynamoPutItem transform — is embedded as Lean
functions on the runtime input, with an interpreter for the
`States.Format` intrinsic used in the partition-key expression.
-/

/-- CDK `RemovalPolicy`. -/
inductive RemovalPolicy
  | DESTROY
  | RETAIN
  deriving DecidableEq, Repr

/-- DynamoDB `AttributeType` (only the variants the stack uses). -/
inductive AttributeType
  | STRING
  | NUMBER
  deriving DecidableEq, Repr

/-- A DynamoDB key attribute definition (`name` + `type`). -/
structure KeyAttribute where
  name : String
  type : AttributeType
  deriving DecidableEq, Repr

/-- CDK `Duration`, normalised to seconds. -/
structure Duration where
  toSeconds : Nat
  deriving DecidableEq, Repr

/-- `Duration.seconds(n)`. -/
def Duration.ofSeconds (n : Nat) : Duration := ⟨n⟩

/-- `Duration.minutes(n)`. -/
def Duration.ofMinutes (n : Nat) : Duration := ⟨n * 60⟩

/-- CloudWatch Logs `RetentionDays` (only the variant the stack uses). -/
inductive RetentionDays
  | ONE_WEEK
  deriving DecidableEq, Repr

/-- Number of days a `RetentionDays` setting keeps logs. -/
def RetentionDays.toDays : RetentionDays → Nat
  | .ONE_WEEK => 7

/-- Step Functions `StateMachineType`. -/
inductive StateMachineType
  | EXPRESS
  | STANDARD
  deriving DecidableEq, Repr

/-- Step Functions `LogLevel` (only the variant the stack uses). -/
inductive LogLevel
  | ALL
  deriving DecidableEq, Repr

/-- `PipeState` enum from `stack.ts`. -/
inductive PipeState
  | RUNNING
  | STOPPED
  deriving DecidableEq, Repr

/-- The ARNs referenced by the stack's policies and the pipe, plus the
IAM wildcard resource `'*'`.  The concrete ARN strings are synthesised
by the cloud provider at deploy time, so they are represented
symbolically. -/
inductive Resource
  | queueArn
  | stateMachineArn
  | star
  deriving DecidableEq, Repr

/-- Properties of the `TableV2` construct `PipesTestTable`. -/
structure TableV2Props where
  tableName : String
  partitionKey : KeyAttribute
  sortKey : KeyAttribute
  billingOnDemand : Bool
  deletionProtection : Bool
  pointInTimeRecovery : Bool
  timeToLiveAttribute : String
  removalPolicy : RemovalPolicy
  deriving DecidableEq, Repr

/-- The DynamoDB table `PipesTestTable` (`stack.ts` lines 40–56). -/
def PipesTestTable : TableV2Props :=
  { tableName := "pipes-test-table"
    partitionKey := { name := "pk", type := .STRING }
    sortKey := { name := "sk", type := .STRING }
    billingOnDemand := true
    deletionProtection := false
    pointInTimeRecovery := false
    timeToLiveAttribute := "ttl"
    removalPolicy := .DESTROY }

/-- Properties of the `Queue` construct `PipesTestQueue`. -/
structure QueueProps where
  queueName : String
  visibilityTimeout : Duration
  retentionPeriod : Duration
  removalPolicy : RemovalPolicy
  deriving DecidableEq, Repr

/-- The SQS queue `PipesTestQueue` (`stack.ts` lines 58–63). -/
def PipesTestQueue : QueueProps :=
  { queueName := "pipes-test-queue"
    visibilityTimeout := Duration.ofSeconds 300
    retentionPeriod := Duration.ofMinutes 10
    removalPolicy := .DESTROY }

/-- Properties of the `Topic` construct plus its queue subscription. -/
structure TopicProps where
  topicName : String
  displayName : String
  rawMessageDelivery : Bool
  deriving DecidableEq, Repr

/-- The SNS topic `PipesTestSns` with its SQS subscription
(`stack.ts` lines 65–74). -/
def PipesTestSns : TopicProps :=
  { topicName := "pipes-test-sns"
    displayName := "Topic fot EventBridge Pipes Test"
    rawMessageDelivery := true }

/-- Properties of the `LogGroup` construct. -/
structure LogGroupProps where
  logGroupName : String
  removalPolicy : RemovalPolicy
  retention : RetentionDays
  deriving DecidableEq, Repr

/-- The log group `PipesTestStateMachineLogGroup`
(`stack.ts` lines 76–80). -/
def stepFnLogGroup : LogGroupProps :=
  { logGroupName := "pipes-test-state-machine"
    removalPolicy := .DESTROY
    retention := .ONE_WEEK }

/-- The runtime input record the workflow transforms, per the comment at
`stack.ts` lines 82–89 and the README: the two measurements arrive as
strings (the documented CDK defect). -/
structure WeatherMessage where
  city : String
  date : String
  inspectTime : String
  tempCelcius : String
  humidityPercent : String
  deriving DecidableEq, Repr

/-- A DynamoDB attribute value as built by the
`DynamoAttributeValue.fromString` / `fromNumber` factories.  DynamoDB
serialises number attributes with a string payload under type `N`, so
both carry a `String`; the constructor records the declared attribute
type. -/
inductive DynamoAttributeValue
  | fromString (s : String)
  | fromNumber (n : String)
  deriving DecidableEq, Repr

/-- DynamoDB wire types for the attribute values above. -/
inductive DynamoAttrType
  | S
  | N
  deriving DecidableEq, Repr

/-- The DynamoDB type tag under which an attribute value is stored. -/
def DynamoAttributeValue.attrType : DynamoAttributeValue → DynamoAttrType
  | .fromString _ => .S
  | .fromNumber _ => .N

/-- The `\x7b` character. -/
def lbrace : Char := Char.ofNat 123

/-- The `\x7d` character. -/
def rbrace : Char := Char.ofNat 125

/-- Interpreter for the `States.Format` intrinsic on character lists:
each `\x7b\x7d` placeholder is replaced by the next argument, other
characters are copied. -/
def statesFormatAux : List Char → List String → List Char
  | [], _ => []
  | [c], _ => [c]
  | c :: c2 :: rest2, args =>
    if c = lbrace ∧ c2 = rbrace then
      match args with
      | a :: as => a.data ++ statesFormatAux rest2 as
      | [] => c :: c2 :: statesFormatAux rest2 []
    else c :: statesFormatAux (c2 :: rest2) args

/-- `States.Format(template, args...)`. -/
def statesFormat (template : String) (args : List String) : String :=
  ⟨statesFormatAux template.data args⟩

/-- The partition-key expression of the put-item step
(`States.Format('WDATA#CITY#\x7b\x7d#\x7b\x7d', $.city, $.date)`,
`stack.ts` line 95). -/
def pkExpr (m : WeatherMessage) : String :=
  statesFormat "WDATA#CITY#\x7b\x7d#\x7b\x7d" [m.city, m.date]

/-- The item written by the `DynamoPutItem` task `DynamoPutItem`
(`stack.ts` lines 92–103), as an association list from attribute name
to attribute value.  `JsonPath.stringAt`/`numberAt` select the named
field of the runtime input. -/
def dynamoDbPutItemEntry (m : WeatherMessage) : List (String × DynamoAttributeValue) :=
  [ ("pk", .fromString (pkExpr m))
  , ("sk", .fromString m.inspectTime)
  , ("type", .fromString "WeatherData")
  , ("inspectTime", .fromString m.inspectTime)
  , ("tempCelcius", .fromNumber m.tempCelcius)
  , ("humidityPercent", .fromNumber m.humidityPercent) ]

/-- A table operation a workflow state can perform against DynamoDB. -/
inductive TableOperation
  | PutItem (tableName : String) (item : List (String × DynamoAttributeValue))
  | UpdateItem (tableName : String)
  | DeleteItem (tableName : String)
  deriving DecidableEq, Repr

/-- Whether a table operation is a put-item write. -/
def TableOperation.isPutItem : TableOperation → Bool
  | .PutItem _ _ => true
  | _ => false

/-- The `DynamoPutItem` task applied to one runtime element: a put-item
write of `dynamoDbPutItemEntry` into the table. -/
def dynamoDbPutItemApply (m : WeatherMessage) : TableOperation :=
  .PutItem PipesTestTable.tableName (dynamoDbPutItemEntry m)

/-- One element of the state machine's input: the pipe's
`inputTemplate` `'\x7b "body": <$.body> \x7d'` (`stack.ts` line 164)
wraps each received message's body in an object with a single `body`
field. -/
structure PipeEnvelope where
  body : WeatherMessage
  deriving DecidableEq, Repr

/-- The `Pass` state `SelectBodyFromInput` (`stack.ts` lines 111–114):
its `inputPath` `$..body` collects the `body` field of every element of
the input array. -/
def selectBodyFromInput (input : List PipeEnvelope) : List WeatherMessage :=
  input.map PipeEnvelope.body

/-- The `Map` state `MapInputToDynamoDbPutItem` (`stack.ts` lines
104–109): `itemsPath` `$` iterates the whole current array, running the
`DynamoPutItem` iterator on each element. -/
def mapInputToDynamoDbPutItem (items : List WeatherMessage) : List TableOperation :=
  items.map dynamoDbPutItemApply

/-- The state machine's definition body: the `Pass` state chained into
the `Map` state (`stack.ts` lines 111–117).  Running it on an input
array yields the list of table operations performed. -/
def stateMachineRun (input : List PipeEnvelope) : List TableOperation :=
  mapInputToDynamoDbPutItem (selectBodyFromInput input)

/-- Properties of the `StateMachine` construct. -/
structure StateMachineProps where
  stateMachineName : String
  stateMachineType : StateMachineType
  timeout : Duration
  logDestination : LogGroupProps
  logIncludeExecutionData : Bool
  logLevel : LogLevel
  deriving DecidableEq, Repr

/-- The state machine `PipesTestStateMachine` (`stack.ts` lines
116–126). -/
def PipesTestStateMachine : StateMachineProps :=
  { stateMachineName := "pipes-test-state-machine"
    stateMachineType := .EXPRESS
    timeout := Duration.ofMinutes 1
    logDestination := stepFnLogGroup
    logIncludeExecutionData := true
    logLevel := .ALL }

/-- An IAM policy statement: a list of actions allowed on a list of
resources. -/
structure PolicyStatement where
  actions : List String
  resources : List Resource
  deriving DecidableEq, Repr

/-- The three policy statements added to `pipeRole`
(`stack.ts` lines 133–150), in order. -/
def pipeRolePolicies : List PolicyStatement :=
  [ { actions := ["sqs:ReceiveMessage", "sqs:DeleteMessage", "sqs:GetQueueAttributes"]
      resources := [.queueArn] }
  , { actions := ["states:ListStateMachines"]
      resources := [.star] }
  , { actions := ["states:Start*", "states:Stop*"]
      resources := [.stateMachineArn] } ]

/-- The individual (action, resource) grants of the role's policy,
flattened from its statements. -/
def roleGrants : List (String × Resource) :=
  pipeRolePolicies.flatMap fun s => s.actions.flatMap fun a => s.resources.map fun r => (a, r)

/-- Source parameters of the pipe (`sqsQueueParameters`). -/
structure SqsQueueParameters where
  batchSize : Nat
  maximumBatchingWindowInSeconds : Nat
  deriving DecidableEq, Repr

/-- Properties of the `CfnPipe` construct. -/
structure CfnPipeProps where
  description : String
  name : String
  desiredState : PipeState
  source : Resource
  sourceParameters : SqsQueueParameters
  inputTemplate : String
  target : Resource
  deriving DecidableEq, Repr

/-- The pipe `PipesTestPipe` (`stack.ts` lines 152–168). -/
def PipesTestPipe : CfnPipeProps :=
  { description := "EventBridge Pipes Test Pipe"
    name := "pipes-test-pipe"
    desiredState := .RUNNING
    source := .queueArn
    sourceParameters := { batchSize := 10, maximumBatchingWindowInSeconds := 45 }
    inputTemplate := "\x7b \"body\": <$.body> \x7d"
    target := .stateMachineArn }

/-- The sample message from the README's publish command. -/
def sampleMessage : WeatherMessage :=
  { city := "Tampere"
    date := "2023-10-15"
    inspectTime := "2023-10-15T17:00:58+03:00"
    tempCelcius := "5.1"
    humidityPercent := "58" }

/-- Applying the put-item step's `States.Format` template to two
arguments concatenates the literal segments with the arguments. -/
theorem statesFormat_wdata (a b : String) :
    statesFormat "WDATA#CITY#\x7b\x7d#\x7b\x7d" [a, b] = "WDATA#CITY#" ++ a ++ "#" ++ b := by
  cases a with
  | mk la =>
  cases b with
  | mk lb =>
  apply String.ext
  simp [statesFormat, statesFormatAux, lbrace, rbrace, String.data_append]

/-- Claim C1 counterexample: at the README's sample message, the item
written by the storage-write step has no attribute named `ttl`, so the
persisted item does not contain the table's declared expiry marker. -/
theorem sampleItem_lacks_ttl_attribute :
    "ttl" ∉ (dynamoDbPutItemEntry sampleMessage).map Prod.fst := by
  decide

/-- Claim C1 (amended): for every input message, the item written by
the storage-write step consists exactly of the composite key (`pk`,
`sk`), the `type` tag, the `inspectTime` copy, and the two
measurements — and contains no `ttl` attribute, even though the table
declares `ttl` as its time-to-live attribute. -/
theorem putItem_attribute_names_no_ttl (m : WeatherMessage) :
    (dynamoDbPutItemEntry m).map Prod.fst =
      ["pk", "sk", "type", "inspectTime", "tempCelcius", "humidityPercent"] ∧
    "ttl" ∉ (dynamoDbPutItemEntry m).map Prod.fst ∧
    PipesTestTable.timeToLiveAttribute = "ttl" := by
  have h : (dynamoDbPutItemEntry m).map Prod.fst =
      ["pk", "sk", "type", "inspectTime", "tempCelcius", "humidityPercent"] := rfl
  refine ⟨h, ?_, rfl⟩
  rw [h]
  decide

/-- Claim C2 counterexample: the pipe's role grants
`states:ListStateMachines` on the wildcard resource `'*'`, which is
neither the queue nor the state machine — so an action is granted on a
resource broader than those two. -/
theorem listStateMachines_granted_on_star :
    ("states:ListStateMachines", Resource.star) ∈ roleGrants ∧
    Resource.star ≠ Resource.queueArn ∧ Resource.star ≠ Resource.stateMachineArn := by
  decide

/-- Claim C2 (amended): the grants of the pipe's role are exactly
receive-message, delete-message and get-queue-attributes on the queue,
the `states:Start*` and `states:Stop*` action wildcards on the state
machine, and `states:ListStateMachines` on all resources (`'*'`). -/
theorem pipeRole_grants_exact :
    roleGrants =
      [ ("sqs:ReceiveMessage", .queueArn)
      , ("sqs:DeleteMessage", .queueArn)
      , ("sqs:GetQueueAttributes", .queueArn)
      , ("states:ListStateMachines", .star)
      , ("states:Start*", .stateMachineArn)
      , ("states:Stop*", .stateMachineArn) ] := by
  decide

/-- Claim C3: for every input message, the written record's partition
key is the string `WDATA#CITY#` followed by the city, `#`, and the
date, and its sort key is the `inspectTime` field. -/
theorem putItem_composite_key (m : WeatherMessage) :
    (dynamoDbPutItemEntry m).lookup "pk" =
      some (.fromString ("WDATA#CITY#" ++ m.city ++ "#" ++ m.date)) ∧
    (dynamoDbPutItemEntry m).lookup "sk" = some (.fromString m.inspectTime) := by
  constructor
  · simp [dynamoDbPutItemEntry, pkExpr, List.lookup, statesFormat_wdata]
  · simp [dynamoDbPutItemEntry, List.lookup]

/-- Claim C4: the workflow first extracts the body elements
(`SelectBodyFromInput`) and then performs exactly one put-item write
per extracted element (`MapInputToDynamoDbPutItem`), so the number of
writes equals the number of extracted body elements. -/
theorem stateMachine_one_put_per_body_element (input : List PipeEnvelope) :
    stateMachineRun input = (selectBodyFromInput input).map dynamoDbPutItemApply ∧
    (stateMachineRun input).length = (selectBodyFromInput input).length := by
  refine ⟨rfl, ?_⟩
  simp [stateMachineRun, mapInputToDynamoDbPutItem]

/-- Claim C5: the two measurement fields arrive as strings (the
`WeatherMessage` fields are strings, per the documented upstream
defect) and the storage-write step stores each of them under DynamoDB
attribute type `N`, i.e. as numbers. -/
theorem measurements_stored_as_numbers (m : WeatherMessage) :
    (dynamoDbPutItemEntry m).lookup "tempCelcius" = some (.fromNumber m.tempCelcius) ∧
    (dynamoDbPutItemEntry m).lookup "humidityPercent" = some (.fromNumber m.humidityPercent) ∧
    DynamoAttributeValue.attrType (.fromNumber m.tempCelcius) = .N ∧
    DynamoAttributeValue.attrType (.fromNumber m.humidityPercent) = .N := by
  refine ⟨?_, ?_, rfl, rfl⟩ <;> simp [dynamoDbPutItemEntry, List.lookup]

/-- Claim C6: every table operation the workflow performs is a put-item
write (none is an update or a delete), and exactly one such write
happens per received message envelope. -/
theorem stateMachine_only_putItem_ops (input : List PipeEnvelope) :
    (stateMachineRun input).all TableOperation.isPutItem = true ∧
    (stateMachineRun input).length = input.length := by
  constructor
  · simp [stateMachineRun, mapInputToDynamoDbPutItem, selectBodyFromInput, List.all_eq_true,
      dynamoDbPutItemApply, TableOperation.isPutItem]
  · simp [stateMachineRun, mapInputToDynamoDbPutItem, selectBodyFromInput]

/-- Claim C7: the table's partition key is the string attribute `pk`,
its sort key is the string attribute `sk`, and its time-to-live
attribute is `ttl`. -/
theorem table_key_schema_and_ttl :
    PipesTestTable.partitionKey = { name := "pk", type := .STRING } ∧
    PipesTestTable.sortKey = { name := "sk", type := .STRING } ∧
    PipesTestTable.timeToLiveAttribute = "ttl" :=
  ⟨rfl, rfl, rfl⟩

/-- Claim C8: the rendered configuration's scalar parameters equal
their configured values: batch size 10, batching window 45 s, queue
visibility timeout 300 s, queue retention 10 minutes, state machine
timeout 1 minute, log retention one week (7 days). -/
theorem operational_parameter_values :
    PipesTestPipe.sourceParameters.batchSize = 10 ∧
    PipesTestPipe.sourceParameters.maximumBatchingWindowInSeconds = 45 ∧
    PipesTestQueue.visibilityTimeout = Duration.ofSeconds 300 ∧
    PipesTestQueue.retentionPeriod.toSeconds = 10 * 60 ∧
    PipesTestStateMachine.timeout.toSeconds = 60 ∧
    stepFnLogGroup.retention.toDays = 7 :=
  ⟨rfl, rfl, rfl, rfl, rfl, rfl⟩

/-- Claim C9: for every input message, the written record's `sk`
attribute equals its `inspectTime` attribute (both copy the input's
`inspectTime` field), and its `type` attribute is the constant string
`WeatherData`, independent of the input. -/
theorem sk_copies_inspectTime_and_type_constant (m : WeatherMessage) :
    (dynamoDbPutItemEntry m).lookup "sk" = (dynamoDbPutItemEntry m).lookup "inspectTime" ∧
    (dynamoDbPutItemEntry m).lookup "sk" = some (.fromString m.inspectTime) ∧
    (dynamoDbPutItemEntry m).lookup "type" = some (.fromString "WeatherData") := by
  refine ⟨?_, ?_, ?_⟩ <;> simp [dynamoDbPutItemEntry, List.lookup]

/-- Claim C10: the table, the queue and the log group all carry removal
policy `DESTROY`, and the table additionally has deletion protection
disabled. -/
theorem stateful_resources_destroy_on_removal :
    PipesTestTable.removalPolicy = .DESTROY ∧
    PipesTestQueue.removalPolicy = .DESTROY ∧
    stepFnLogGroup.removalPolicy = .DESTROY ∧
    PipesTestTable.deletionProtection = false :=
  ⟨rfl, rfl, rfl, rfl⟩

/-- Witness for claim C1's amended theorem at the README's sample
message. -/
theorem putItem_attribute_names_no_ttl_witness :
    (dynamoDbPutItemEntry sampleMessage).map Prod.fst =
      ["pk", "sk", "type", "inspectTime", "tempCelcius", "humidityPercent"] ∧
    "ttl" ∉ (dynamoDbPutItemEntry sampleMessage).map Prod.fst ∧
    PipesTestTable.timeToLiveAttribute = "ttl" :=
  putItem_attribute_names_no_ttl sampleMessage

/-- Witness for claim C3's theorem at the README's sample message: the
composite key evaluates to the expected concrete strings. -/
theorem putItem_composite_key_witness :
    (dynamoDbPutItemEntry sampleMessage).lookup "pk" =
      some (.fromString "WDATA#CITY#Tampere#2023-10-15") ∧
    (dynamoDbPutItemEntry sampleMessage).lookup "sk" =
      some (.fromString "2023-10-15T17:00:58+03:00") :=
  putItem_composite_key sampleMessage

/-- Witness for claim C4's theorem on a one-element input. -/
theorem stateMachine_one_put_per_body_element_witness :
    stateMachineRun [⟨sampleMessage⟩] =
      (selectBodyFromInput [⟨sampleMessage⟩]).map dynamoDbPutItemApply ∧
    (stateMachineRun [⟨sampleMessage⟩]).length =
      (selectBodyFromInput [⟨sampleMessage⟩]).length :=
  stateMachine_one_put_per_body_element [⟨sampleMessage⟩]

/-- Witness for claim C5's theorem at the README's sample message. -/
theorem measurements_stored_as_numbers_witness :
    (dynamoDbPutItemEntry sampleMessage).lookup "tempCelcius" =
      some (.fromNumber "5.1") ∧
    (dynamoDbPutItemEntry sampleMessage).lookup "humidityPercent" =
      some (.fromNumber "58") ∧
    DynamoAttributeValue.attrType (.fromNumber "5.1") = .N ∧
    DynamoAttributeValue.attrType (.fromNumber "58") = .N :=
  measurements_stored_as_numbers sampleMessage

/-- Witness for claim C6's theorem on a one-element input. -/
theorem stateMachine_only_putItem_ops_witness :
    (stateMachineRun [⟨sampleMessage⟩]).all TableOperation.isPutItem = true ∧
    (stateMachineRun [⟨sampleMessage⟩]).length = ([⟨sampleMessage⟩] : List PipeEnvelope).length :=
  stateMachine_only_putItem_ops [⟨sampleMessage⟩]

/-- Witness for claim C9's theorem at the README's sample message. -/
theorem sk_copies_inspectTime_and_type_constant_witness :
    (dynamoDbPutItemEntry sampleMessage).lookup "sk" =
      (dynamoDbPutItemEntry sampleMessage).lookup "inspectTime" ∧
    (dynamoDbPutItemEntry sampleMessage).lookup "sk" =
      some (.fromString "2023-10-15T17:00:58+03:00") ∧
    (dynamoDbPutItemEntry sampleMessage).lookup "type" =
      some (.fromString "WeatherData") :=
  sk_copies_inspectTime_and_type_constant sampleMessage
